import Mathlib

/-!
Verification of the merge-and-derive analytics engine of the
vietnam-weather-forecast backend.

The Python source is shallowly embedded: numeric values are modelled as exact
rationals (ℚ), Python `None` as `Option.none`, timestamps as integer hours or
rational hours, and Python dictionaries keyed by timestamps as functions
`Int → Option _`.  Python `round` (round-half-to-even on IEEE doubles) is
modelled by `round_half_even` on ℚ; on every input domain referenced by the
claims the float computation and the exact rational computation coincide.
-/

namespace VnWeather

/-! ## Shared numeric helpers (api/views_flood.py) -/

/-- `_safe_float(x, default)` from api/views_flood.py: `None` (or unparsable)
becomes the default, otherwise the numeric value itself. -/
def _safe_float (x : Option ℚ) (default : ℚ) : ℚ := x.getD default

/-- `_clamp(x, lo, hi)` from api/views_flood.py. -/
def _clamp (x lo hi : ℚ) : ℚ := max lo (min hi x)

/-- Python `round` on the values reached by this code base: round half to
even.  `x.floor` is `Rat.floor`, the exact floor of a rational. -/
def round_half_even (x : ℚ) : ℤ :=
  let f : ℤ := x.floor
  if x - f < 1/2 then f
  else if (1:ℚ)/2 < x - f then f + 1
  else if f % 2 = 0 then f else f + 1

theorem rat_floor_eq_int_floor (x : ℚ) : (x.floor : ℤ) = ⌊x⌋ :=
  (Rat.floor_def' x).trans Rat.floor_def.symm

/-! ## Alerts engine: severity scale (api/views_alerts.py) -/

/-- `_LEVEL_ORDER` from api/views_alerts.py. -/
def _LEVEL_ORDER : List String := ["none", "info", "watch", "warning", "danger"]

/-- `_LEVEL_RANK.get(lv, 0)`: position of a level in `_LEVEL_ORDER`,
defaulting to 0 for unknown strings (dict `.get` with default). -/
def _rank_of (lv : String) : ℕ := (_LEVEL_ORDER.indexOf? lv).getD 0

/-- A hazard record.  The Python dict carries `type`, `level`, `score`,
`headline`, `description`, `advices`; the free-text `description` (an
f-string) and `advices` play no role in any claim and are omitted;
`headline` is kept because it distinguishes construction sites. -/
structure Hazard where
  h_type : String
  level : String
  score : ℤ
  headline : String
deriving DecidableEq, Repr

/-- `_make_hazard` from api/views_alerts.py (sans description/advices):
an unknown level string is replaced by `"info"`. -/
def _make_hazard (h_type level : String) (score : ℤ) (headline : String) : Hazard :=
  { h_type := h_type
    level := if (_LEVEL_ORDER.indexOf? level).isSome then level else "info"
    score := score
    headline := headline }

/-- The level part of `_calc_overall_level_and_comment` from
api/views_alerts.py.  Python takes `main = max(hazards, key=_rank)` and uses
only `_rank(main)`, which equals the fold below; the accompanying comment
string does not influence the level and is not modelled. -/
def _calc_overall_level (hazards : List Hazard) : String :=
  if hazards.isEmpty then "none"
  else
    let main_rank := (hazards.map (fun h => _rank_of h.level)).foldl max 0
    let num_watch_or_more := (hazards.filter (fun h => 2 ≤ _rank_of h.level)).length
    let overall_rank :=
      if 2 ≤ num_watch_or_more ∧ main_rank < _LEVEL_ORDER.length - 1
      then main_rank + 1 else main_rank
    _LEVEL_ORDER.getD overall_rank "none"

theorem rank_of_le_four (lv : String) : _rank_of lv ≤ 4 := by
  unfold _rank_of _LEVEL_ORDER
  simp only [List.indexOf?_cons, List.indexOf?_nil, Option.map_none, Option.map_some]
  split_ifs <;> simp

theorem foldl_max_rank_le (hs : List Hazard) :
    (hs.map (fun h => _rank_of h.level)).foldl max 0 ≤ 4 := by
  induction hs using List.reverseRecOn with
  | nil => simp
  | append_singleton xs x ih =>
      simp only [List.map_append, List.foldl_append, List.map_cons, List.map_nil,
        List.foldl_cons, List.foldl_nil]
      exact max_le ih (rank_of_le_four x.level)

/-- C2: for a non-empty hazard list the overall level is the level whose rank
is the maximum hazard rank, raised by one step exactly when at least two
hazards rank watch (2) or higher, capped at danger (4); two watch hazards
give warning, a single warning hazard stays warning; the empty list gives
none. -/
theorem C2_overall_level_combination :
    (_calc_overall_level [] = "none") ∧
    (∀ hs : List Hazard, hs ≠ [] →
      _calc_overall_level hs =
        _LEVEL_ORDER.getD
          (min 4 ((hs.map (fun h => _rank_of h.level)).foldl max 0 +
            (if 2 ≤ (hs.filter (fun h => 2 ≤ _rank_of h.level)).length then 1 else 0)))
          "none") ∧
    (∀ a b : Hazard, a.level = "watch" → b.level = "watch" →
      _calc_overall_level [a, b] = "warning") ∧
    (∀ a : Hazard, a.level = "warning" → _calc_overall_level [a] = "warning") := by
  refine ⟨by simp [_calc_overall_level], ?_, ?_, ?_⟩
  · intro hs hne
    have hmax := foldl_max_rank_le hs
    unfold _calc_overall_level
    rw [if_neg (by simpa [List.isEmpty_iff] using hne)]
    simp only [_LEVEL_ORDER, List.length_cons, List.length_nil]
    rcases Nat.lt_or_ge ((hs.map (fun h => _rank_of h.level)).foldl max 0) 4 with hlt | hge
    · by_cases hnum : 2 ≤ (hs.filter (fun h => 2 ≤ _rank_of h.level)).length
      · rw [if_pos ⟨hnum, by omega⟩, if_pos hnum]
        congr 1
        omega
      · rw [if_neg (by tauto), if_neg hnum]
        congr 1
        omega
    · have h4 : (hs.map (fun h => _rank_of h.level)).foldl max 0 = 4 := le_antisymm hmax hge
      rw [h4]
      rw [if_neg (by omega)]
      by_cases hnum : 2 ≤ (hs.filter (fun h => 2 ≤ _rank_of h.level)).length
      · rw [if_pos hnum]
        norm_num
      · rw [if_neg hnum]
        norm_num
  · intro a b ha hb
    simp [_calc_overall_level, _rank_of, _LEVEL_ORDER, ha, hb, List.indexOf?, List.findIdx?]
  · intro a ha
    simp [_calc_overall_level, _rank_of, _LEVEL_ORDER, ha, List.indexOf?, List.findIdx?]

/-- Witness for C2 at concrete hazards: two watch hazards escalate to
warning, one warning hazard stays warning. -/
theorem C2_overall_level_combination_witness :
    _calc_overall_level
      [_make_hazard "rain" "watch" 2 "a", _make_hazard "strong_wind" "watch" 2 "b"] = "warning" ∧
    _calc_overall_level [_make_hazard "heat" "warning" 3 "c"] = "warning" := by
  constructor
  · exact C2_overall_level_combination.2.2.1 _ _
      (by simp [_make_hazard, _LEVEL_ORDER, List.indexOf?, List.findIdx?])
      (by simp [_make_hazard, _LEVEL_ORDER, List.indexOf?, List.findIdx?])
  · exact C2_overall_level_combination.2.2.2 _
      (by simp [_make_hazard, _LEVEL_ORDER, List.indexOf?, List.findIdx?])

/-! ## Flood risk scorer (api/views_flood.py) -/

def RISK_LEVELS : List String := ["NONE", "LOW", "MEDIUM", "HIGH", "EXTREME"]

/-- `_effective_rain_1h` from api/views_flood.py. -/
def _effective_rain_1h (rain_1h : Option ℚ) : ℚ :=
  max 0 (_safe_float rain_1h 0)

/-- `_effective_rain_3h` from api/views_flood.py. -/
def _effective_rain_3h (rain_1h rain_3h : Option ℚ) : ℚ :=
  let r1 := max 0 (_safe_float rain_1h 0)
  let r3 := max 0 (_safe_float rain_3h 0)
  let extra_3h := max 0 (r3 - r1)
  max 0 (r1 + 0.6 * extra_3h)

/-- `_effective_rain_6h` from api/views_flood.py. -/
def _effective_rain_6h (rain_1h rain_3h rain_6h : Option ℚ) : ℚ :=
  let r1 := max 0 (_safe_float rain_1h 0)
  let r3 := max 0 (_safe_float rain_3h 0)
  let r6 := max 0 (_safe_float rain_6h 0)
  let extra_3h := max 0 (r3 - r1)
  let extra_6h := max 0 (r6 - r3)
  max 0 (r1 + 0.6 * extra_3h + 0.4 * extra_6h)

/-- `_rain_band_from_eff6` from api/views_flood.py. -/
def _rain_band_from_eff6 (eff_6h : Option ℚ) : ℤ :=
  let e := max 0 (_safe_float eff_6h 0)
  if e < 0.5 then 0
  else if e < 5 then 1
  else if e < 15 then 2
  else if e < 30 then 3
  else 4

/-- `_terrain_band_from_relief_local` from api/views_flood.py. -/
def _terrain_band_from_relief_local (relief_local_m : Option ℚ) : ℤ :=
  let r := max 0 (_safe_float relief_local_m 1000000000)
  if 30 ≤ r then 0
  else if 10 ≤ r then 1
  else if 3 ≤ r then 2
  else if 1 ≤ r then 3
  else 4

/-- `_elevation_band` from api/views_flood.py. -/
def _elevation_band (elev_m : Option ℚ) : ℤ :=
  let e := _safe_float elev_m 99999
  if e < 5 then 4
  else if e < 20 then 3
  else if e < 80 then 2
  else if e < 200 then 1
  else 0

/-- `_slope_like_penalty` from api/views_flood.py. -/
def _slope_like_penalty (slope_like_m : Option ℚ) : ℤ :=
  let s := max 0 (_safe_float slope_like_m 0)
  if 80 ≤ s then 2
  else if 30 ≤ s then 1
  else 0

/-- `_combined_risk_score` from api/views_flood.py.  The arguments are
Python ints; `int(_clamp(b, lo, hi))` on an int is exactly the integer
clamp written below.  Python `round` on the reachable raw values (tenths
produced from clamped bands) agrees with exact round-half-to-even. -/
def _combined_risk_score (rain_band relief_band elev_band slope_pen : ℤ) : ℤ :=
  let rain_band := max 0 (min 4 rain_band)
  let relief_band := max 0 (min 4 relief_band)
  let elev_band := max 0 (min 4 elev_band)
  let slope_pen := max 0 (min 2 slope_pen)
  let raw : ℚ := 0.70 * rain_band + 0.20 * relief_band + 0.10 * elev_band
  let score := round_half_even raw - slope_pen
  max 0 (min 4 score)

/-- The formula claimed by the spec for C3, read literally: no clamping of
the incoming bands, only the final result clamped to [0,4]. -/
def risk_score_spec_formula (rain_band relief_band elev_band slope_pen : ℤ) : ℤ :=
  max 0 (min 4
    (round_half_even ((0.70:ℚ) * rain_band + 0.20 * relief_band + 0.10 * elev_band)
      - slope_pen))

theorem risk_levels_get_of_le (n : ℕ) (h : n ≤ 4) : (RISK_LEVELS.get? n).isSome := by
  interval_cases n <;> rfl

/-- C3 counterexample: the code clamps each band into its range before the
weighted sum, the claimed formula does not; at `rain_band = 10` (other
inputs 0) the code yields 3 while the claimed formula yields 4, so the
claim quantified over all integer inputs is false. -/
theorem C3_risk_score_counterexample :
    _combined_risk_score 10 0 0 0 = 3 ∧ risk_score_spec_formula 10 0 0 0 = 4 ∧
    ¬ (∀ r l e p : ℤ, _combined_risk_score r l e p = risk_score_spec_formula r l e p) := by
  have h1 : _combined_risk_score 10 0 0 0 = 3 := by
    norm_num [_combined_risk_score, round_half_even, Rat.floor]
  have h2 : risk_score_spec_formula 10 0 0 0 = 4 := by
    norm_num [risk_score_spec_formula, round_half_even, Rat.floor]
  exact ⟨h1, h2, fun hall => by have := hall 10 0 0 0; omega⟩

/-- C3 (amended): for band inputs already in range (bands in [0,4], penalty
in [0,2]) the combined score is exactly
`clamp(round(0.70*rain + 0.20*relief + 0.10*elev) − slope_penalty, 0, 4)`;
for ALL integer inputs the score lies in [0,4] and is a valid index into
`RISK_LEVELS`; and the concrete scenario rain=2, relief=4, elev=4, pen=0
gives raw 2.6, score 3, level "HIGH". -/
theorem C3_risk_score_formula_and_bounds :
    (∀ r l e p : ℤ, 0 ≤ r → r ≤ 4 → 0 ≤ l → l ≤ 4 → 0 ≤ e → e ≤ 4 → 0 ≤ p → p ≤ 2 →
      _combined_risk_score r l e p = risk_score_spec_formula r l e p) ∧
    (∀ r l e p : ℤ,
      0 ≤ _combined_risk_score r l e p ∧ _combined_risk_score r l e p ≤ 4 ∧
      (RISK_LEVELS.get? (_combined_risk_score r l e p).toNat).isSome) ∧
    (_combined_risk_score 2 4 4 0 = 3 ∧
      RISK_LEVELS.get? (_combined_risk_score 2 4 4 0).toNat = some "HIGH") := by
  refine ⟨?_, ?_, ?_, ?_⟩
  · intro r l e p hr0 hr4 hl0 hl4 he0 he4 hp0 hp2
    have h1 : max 0 (min 4 r) = r := by omega
    have h2 : max 0 (min 4 l) = l := by omega
    have h3 : max 0 (min 4 e) = e := by omega
    have h4 : max 0 (min 2 p) = p := by omega
    simp only [_combined_risk_score, risk_score_spec_formula, h1, h2, h3, h4]
  · intro r l e p
    have hb : 0 ≤ _combined_risk_score r l e p ∧ _combined_risk_score r l e p ≤ 4 := by
      simp only [_combined_risk_score]
      omega
    refine ⟨hb.1, hb.2, risk_levels_get_of_le _ (by omega)⟩
  · norm_num [_combined_risk_score, round_half_even, Rat.floor]
  · have h3 : _combined_risk_score 2 4 4 0 = 3 := by
      norm_num [_combined_risk_score, round_half_even, Rat.floor]
    rw [h3]
    rfl

/-- Witness for C3 (amended) at in-range input (2,4,4,0): both formulas
give 3 and the level is "HIGH". -/
theorem C3_risk_score_formula_and_bounds_witness :
    _combined_risk_score 2 4 4 0 = risk_score_spec_formula 2 4 4 0 ∧
    _combined_risk_score 2 4 4 0 = 3 := by
  exact ⟨C3_risk_score_formula_and_bounds.1 2 4 4 0 (by norm_num) (by norm_num)
      (by norm_num) (by norm_num) (by norm_num) (by norm_num) (by norm_num) (by norm_num),
    C3_risk_score_formula_and_bounds.2.2.1⟩

/-- C4: effective rainfall equals the claimed decayed formulas (on the
absent-as-0, negatives-clamped-to-0 inputs), and the concrete scenario
rain_1h=2, rain_3h=8, rain_6h=10 gives eff_6h = 6.4 with rain band 2. -/
theorem C4_effective_rain_formulas :
    (∀ a : Option ℚ, _effective_rain_1h a = max 0 (_safe_float a 0)) ∧
    (∀ a b : Option ℚ,
      _effective_rain_3h a b =
        max 0 (_safe_float a 0) +
          0.6 * max 0 (max 0 (_safe_float b 0) - max 0 (_safe_float a 0))) ∧
    (∀ a b c : Option ℚ,
      _effective_rain_6h a b c =
        max 0 (_safe_float a 0) +
          0.6 * max 0 (max 0 (_safe_float b 0) - max 0 (_safe_float a 0)) +
          0.4 * max 0 (max 0 (_safe_float c 0) - max 0 (_safe_float b 0))) ∧
    (_effective_rain_6h (some 2) (some 8) (some 10) = 6.4 ∧
      _rain_band_from_eff6 (some 6.4) = 2) := by
  refine ⟨fun a => rfl, ?_, ?_, ?_, ?_⟩
  · intro a b
    unfold _effective_rain_3h
    apply max_eq_right
    positivity
  · intro a b c
    unfold _effective_rain_6h
    apply max_eq_right
    positivity
  · norm_num [_effective_rain_6h, _safe_float]
  · norm_num [_rain_band_from_eff6, _safe_float]

/-! ## Rain hazard (api/views_alerts.py, `_build_rain_hazard`) -/

/-- The combined effective rainfall computed at the top of
`_build_rain_hazard`: `float(x or 0.0)` maps `None` to 0. -/
def rain_eff (rain_1h rain_3h rain_6h : Option ℚ) : ℚ :=
  let r1 := rain_1h.getD 0
  let r3 := rain_3h.getD 0
  let r6 := rain_6h.getD 0
  let extra_3h := max 0 (r3 - r1)
  let extra_6h := max 0 (r6 - r3)
  r1 + 0.6 * extra_3h + 0.4 * extra_6h

/-- `_build_rain_hazard` from api/views_alerts.py. -/
def _build_rain_hazard (rain_1h rain_3h rain_6h precip_now : Option ℚ) : Option Hazard :=
  let eff := rain_eff rain_1h rain_3h rain_6h
  let light_rain_now :=
    match precip_now with
    | some p => decide (0.1 ≤ p) && decide (eff < 0.5)
    | none => false
  if light_rain_now then some (_make_hazard "rain" "info" 1 "Mưa nhẹ")
  else if eff < 0.5 then none
  else if eff < 5 then some (_make_hazard "rain" "info" 1 "Mưa nhỏ, rải rác")
  else if eff < 15 then some (_make_hazard "rain" "watch" 2 "Mưa vừa, có nguy cơ ngập nhẹ")
  else if eff < 30 then some (_make_hazard "rain" "warning" 3 "Mưa to, nguy cơ ngập cục bộ")
  else some (_make_hazard "rain" "danger" 4 "Mưa rất to, nguy cơ lũ cục bộ")

/-- C5: below 0.5mm combined effective rainfall there is no hazard unless
current-hour precipitation reaches 0.1mm (then a light-rain info hazard);
from 0.5 the tiers are info `[0.5,5)`, watch `[5,15)`, warning `[15,30)`,
danger `≥30`. -/
theorem C5_rain_hazard_tiers :
    ∀ r1 r3 r6 pn : Option ℚ,
      (rain_eff r1 r3 r6 < 0.5 →
        ((∀ p ∈ pn, p < 0.1) → _build_rain_hazard r1 r3 r6 pn = none) ∧
        (∀ p ∈ pn, 0.1 ≤ p →
          _build_rain_hazard r1 r3 r6 pn = some (_make_hazard "rain" "info" 1 "Mưa nhẹ"))) ∧
      (0.5 ≤ rain_eff r1 r3 r6 → rain_eff r1 r3 r6 < 5 →
        _build_rain_hazard r1 r3 r6 pn = some (_make_hazard "rain" "info" 1 "Mưa nhỏ, rải rác")) ∧
      (5 ≤ rain_eff r1 r3 r6 → rain_eff r1 r3 r6 < 15 →
        _build_rain_hazard r1 r3 r6 pn =
          some (_make_hazard "rain" "watch" 2 "Mưa vừa, có nguy cơ ngập nhẹ")) ∧
      (15 ≤ rain_eff r1 r3 r6 → rain_eff r1 r3 r6 < 30 →
        _build_rain_hazard r1 r3 r6 pn =
          some (_make_hazard "rain" "warning" 3 "Mưa to, nguy cơ ngập cục bộ")) ∧
      (30 ≤ rain_eff r1 r3 r6 →
        _build_rain_hazard r1 r3 r6 pn =
          some (_make_hazard "rain" "danger" 4 "Mưa rất to, nguy cơ lũ cục bộ")) := by
  intro r1 r3 r6 pn
  refine ⟨fun hlow => ⟨fun hsmall => ?_, fun p hp hbig => ?_⟩,
    fun h05 h5 => ?_, fun h5 h15 => ?_, fun h15 h30 => ?_, fun h30 => ?_⟩
  · unfold _build_rain_hazard
    cases pn with
    | none => simp [hlow, not_le.mpr hlow]
    | some p =>
        have := hsmall p rfl
        simp only []
        rw [if_neg (by simp [not_le.mpr this]), if_pos hlow]
  · unfold _build_rain_hazard
    cases hp
    simp [hbig, hlow]
  · unfold _build_rain_hazard
    have h1 : ¬ rain_eff r1 r3 r6 < 0.5 := not_lt.mpr (by linarith)
    cases pn with
    | none => simp [h1, h5]
    | some p => simp only []; rw [if_neg (by simp [h1]), if_neg h1, if_pos h5]
  · unfold _build_rain_hazard
    have h1 : ¬ rain_eff r1 r3 r6 < 0.5 := not_lt.mpr (by linarith)
    have h2 : ¬ rain_eff r1 r3 r6 < 5 := not_lt.mpr h5
    cases pn with
    | none => simp [h1, h2, h15]
    | some p => simp only []; rw [if_neg (by simp [h1]), if_neg h1, if_neg h2, if_pos h15]
  · unfold _build_rain_hazard
    have h1 : ¬ rain_eff r1 r3 r6 < 0.5 := not_lt.mpr (by linarith)
    have h2 : ¬ rain_eff r1 r3 r6 < 5 := not_lt.mpr (by linarith)
    have h3 : ¬ rain_eff r1 r3 r6 < 15 := not_lt.mpr h15
    cases pn with
    | none => simp [h1, h2, h3, h30]
    | some p =>
        simp only []
        rw [if_neg (by simp [h1]), if_neg h1, if_neg h2, if_neg h3, if_pos h30]
  · unfold _build_rain_hazard
    have h1 : ¬ rain_eff r1 r3 r6 < 0.5 := not_lt.mpr (by linarith)
    have h2 : ¬ rain_eff r1 r3 r6 < 5 := not_lt.mpr (by linarith)
    have h3 : ¬ rain_eff r1 r3 r6 < 15 := not_lt.mpr (by linarith)
    have h4 : ¬ rain_eff r1 r3 r6 < 30 := not_lt.mpr h30
    cases pn with
    | none => simp [h1, h2, h3, h4]
    | some p =>
        simp only []
        rw [if_neg (by simp [h1]), if_neg h1, if_neg h2, if_neg h3, if_neg h4]

/-- Witness for C5: eff = 0 with 0.2mm current precipitation gives the
light-rain info hazard; eff = 20 (from rain_1h = 20) gives warning. -/
theorem C5_rain_hazard_tiers_witness :
    _build_rain_hazard (some 0) (some 0) (some 0) (some 0.2) =
      some (_make_hazard "rain" "info" 1 "Mưa nhẹ") ∧
    _build_rain_hazard (some 20) (some 20) (some 20) none =
      some (_make_hazard "rain" "warning" 3 "Mưa to, nguy cơ ngập cục bộ") := by
  constructor
  · exact ((C5_rain_hazard_tiers (some 0) (some 0) (some 0) (some 0.2)).1
      (by norm_num [rain_eff])).2 0.2 rfl (by norm_num)
  · exact (C5_rain_hazard_tiers (some 20) (some 20) (some 20) none).2.2.2.1
      (by norm_num [rain_eff]) (by norm_num [rain_eff])

/-! ## Heat / cold hazard (api/views_alerts.py) -/

/-- The heat-index polynomial inlined in `_compute_heat_index`. -/
def heat_index_poly (T RH : ℚ) : ℚ :=
  -8.784695 + 1.61139411 * T + 2.338549 * RH - 0.14611605 * T * RH
    - 0.012308094 * T^2 - 0.016424828 * RH^2 + 0.002211732 * T^2 * RH
    + 0.00072546 * T * RH^2 - 0.000003582 * T^2 * RH^2

/-- `_compute_heat_index` from api/views_alerts.py: `None` humidity falls
back to the raw temperature, humidity is clamped into [0,100], and the
polynomial applies only for `T ≥ 27` and clamped humidity `≥ 40`. -/
def _compute_heat_index (temp_c rel_humidity : Option ℚ) : Option ℚ :=
  match temp_c with
  | none => none
  | some T =>
    match rel_humidity with
    | none => some T
    | some rh =>
      let RH := max 0 (min 100 rh)
      if T < 27 ∨ RH < 40 then some T
      else some (heat_index_poly T RH)

/-- `_compute_windchill` from api/views_alerts.py.  The Python formula uses
`V_kmh ** 0.16`, a real power with no exact rational value; it is abstracted
by the parameter `pow016` — every claim here is independent of its value. -/
def _compute_windchill (pow016 : ℚ → ℚ) (temp_c wind_ms : Option ℚ) : Option ℚ :=
  match temp_c, wind_ms with
  | some T, some w =>
    let V_kmh := w * 3.6
    if 10 < T ∨ V_kmh < 5 then none
    else some (13.12 + 0.6215 * T - 11.37 * pow016 V_kmh + 0.3965 * T * pow016 V_kmh)
  | _, _ => none

/-- `_build_heat_cold_hazard` from api/views_alerts.py.  `cloudcover` only
extends the free-text description (not modelled), so it is unused here. -/
def _build_heat_cold_hazard (pow016 : ℚ → ℚ)
    (temp_c wind_ms _cloudcover rel_humidity : Option ℚ) : Option Hazard :=
  match temp_c with
  | none => none
  | some T =>
    let windchill := _compute_windchill pow016 (some T) wind_ms
    let effective_cold := windchill.getD T
    if effective_cold ≤ 15 then
      if effective_cold ≤ 5 then some (_make_hazard "cold" "warning" 3 "Trời rét, có gió")
      else if effective_cold ≤ 10 then some (_make_hazard "cold" "watch" 2 "Trời lạnh")
      else some (_make_hazard "cold" "info" 1 "Thời tiết se lạnh")
    else if T < 32 then none
    else
      let HI := _compute_heat_index (some T) rel_humidity
      let effective_heat := HI.getD T
      if effective_heat < 32 then none
      else if effective_heat < 41 then some (_make_hazard "heat" "info" 1 "Thời tiết oi nóng")
      else if effective_heat < 54 then
        some (_make_hazard "heat" "watch" 2 "Nắng nóng, cần thận trọng")
      else some (_make_hazard "heat" "warning" 3 "Nắng nóng gay gắt, nguy cơ cao")

/-- On the region where the polynomial is active and the heat branch is
reached (T ≥ 32, clamped humidity in [40,100]) the heat index exceeds 32:
the polynomial minus 32 is an explicit positive combination of products of
the bound slacks, with constant term `HI(32,40) − 32 = 0.277465384`. -/
theorem heat_index_poly_gt_32 (T RH : ℚ) (hT : 32 ≤ T) (h40 : 40 ≤ RH) (h100 : RH ≤ 100) :
    32 < heat_index_poly T RH := by
  have key : heat_index_poly T RH - 32 =
      34683173/125000000
      + (717503607/500000000) * (T - 32)
      + (22175361/125000000) * (RH - 40)
      + (780481/250000000) * (RH - 40)^2
      + (17565879/500000000) * ((T - 32) * (RH - 40))
      + (124053/250000000) * ((T - 32) * (RH - 40)^2)
      + (35214993/500000000) * (T - 32)^2
      + (427563/250000000) * ((T - 32)^2 * (RH - 40))
      + (1791/500000000) * ((T - 32)^2 * ((RH - 40) * (100 - RH))) := by
    unfold heat_index_poly
    ring
  have ht : (0:ℚ) ≤ T - 32 := by linarith
  have hr : (0:ℚ) ≤ RH - 40 := by linarith
  have hs : (0:ℚ) ≤ 100 - RH := by linarith
  nlinarith [key, mul_nonneg ht hr, mul_nonneg ht (mul_nonneg hr hr),
    mul_nonneg (mul_nonneg ht ht) hr, sq_nonneg (T - 32), sq_nonneg (RH - 40),
    mul_nonneg (mul_nonneg ht ht) (mul_nonneg hr hs)]

/-- In the heat branch (T ≥ 32) the effective heat metric — heat index with
raw-temperature fallback — is at least 32, so the dead guard
`effective_heat < 32` never fires. -/
theorem effective_heat_ge_32 (T : ℚ) (rh : Option ℚ) (hT : 32 ≤ T) :
    32 ≤ ((_compute_heat_index (some T) rh).getD T) := by
  cases rh with
  | none => simpa [_compute_heat_index] using hT
  | some v =>
      simp only [_compute_heat_index]
      split
      · simpa using hT
      · next h =>
          push_neg at h
          have h100 : max 0 (min 100 v) ≤ 100 :=
            max_le (by norm_num) (min_le_left _ _)
          simpa using (heat_index_poly_gt_32 T (max 0 (min 100 v)) hT h.2 h100).le

/-- C6: (1) wind-chill is defined exactly when T ≤ 10°C and wind ≥ 5 km/h
(and never without a wind reading); (2) cold tiers on the effective cold
metric (wind-chill, falling back to raw T): ≤5 warning, ≤10 watch, ≤15
info; (3) for T ≥ 32°C the result is a heat hazard tiered on the heat
index (with raw-T fallback): <41 info, <54 watch, ≥54 warning; (4) at most
one hazard is returned and it is cold or heat, never both; (5) at T=38°C,
RH=70% the polynomial heat index exceeds 32 and a hazard triggers, while
for RH<40% the index equals the raw temperature. -/
theorem C6_heat_cold_classifier :
    (∀ pw : ℚ → ℚ, ∀ T w : ℚ,
      (_compute_windchill pw (some T) (some w)).isSome ↔ (T ≤ 10 ∧ 5 ≤ w * 3.6)) ∧
    (∀ pw : ℚ → ℚ, ∀ T : ℚ, _compute_windchill pw (some T) none = none) ∧
    (∀ pw : ℚ → ℚ, ∀ T : ℚ, ∀ w cc rh : Option ℚ,
      ((_compute_windchill pw (some T) w).getD T ≤ 5 →
        _build_heat_cold_hazard pw (some T) w cc rh =
          some (_make_hazard "cold" "warning" 3 "Trời rét, có gió")) ∧
      (5 < (_compute_windchill pw (some T) w).getD T →
        (_compute_windchill pw (some T) w).getD T ≤ 10 →
        _build_heat_cold_hazard pw (some T) w cc rh =
          some (_make_hazard "cold" "watch" 2 "Trời lạnh")) ∧
      (10 < (_compute_windchill pw (some T) w).getD T →
        (_compute_windchill pw (some T) w).getD T ≤ 15 →
        _build_heat_cold_hazard pw (some T) w cc rh =
          some (_make_hazard "cold" "info" 1 "Thời tiết se lạnh"))) ∧
    (∀ pw : ℚ → ℚ, ∀ T : ℚ, ∀ w cc rh : Option ℚ, 32 ≤ T →
      ((_compute_heat_index (some T) rh).getD T < 41 →
        _build_heat_cold_hazard pw (some T) w cc rh =
          some (_make_hazard "heat" "info" 1 "Thời tiết oi nóng")) ∧
      (41 ≤ (_compute_heat_index (some T) rh).getD T →
        (_compute_heat_index (some T) rh).getD T < 54 →
        _build_heat_cold_hazard pw (some T) w cc rh =
          some (_make_hazard "heat" "watch" 2 "Nắng nóng, cần thận trọng")) ∧
      (54 ≤ (_compute_heat_index (some T) rh).getD T →
        _build_heat_cold_hazard pw (some T) w cc rh =
          some (_make_hazard "heat" "warning" 3 "Nắng nóng gay gắt, nguy cơ cao"))) ∧
    (∀ pw : ℚ → ℚ, ∀ t w cc rh : Option ℚ, ∀ h : Hazard,
      _build_heat_cold_hazard pw t w cc rh = some h →
      (h.h_type = "cold" ∨ h.h_type = "heat") ∧
      ¬(h.h_type = "cold" ∧ h.h_type = "heat")) ∧
    (_compute_heat_index (some 38) (some 70) = some (heat_index_poly 38 70) ∧
      32 < heat_index_poly 38 70 ∧
      (∀ pw : ℚ → ℚ, ∀ cc : Option ℚ,
        _build_heat_cold_hazard pw (some 38) none cc (some 70) =
          some (_make_hazard "heat" "warning" 3 "Nắng nóng gay gắt, nguy cơ cao")) ∧
      (∀ rh : ℚ, rh < 40 → _compute_heat_index (some 38) (some rh) = some 38)) := by
  have hwc_def : ∀ pw : ℚ → ℚ, ∀ T w : ℚ,
      (_compute_windchill pw (some T) (some w)).isSome ↔ (T ≤ 10 ∧ 5 ≤ w * 3.6) := by
    intro pw T w
    simp only [_compute_windchill]
    split
    · next hcond =>
        simp only [Option.isSome_none, Bool.false_eq_true, false_iff, not_and, not_le]
        intro h1
        rcases hcond with h | h
        · linarith
        · linarith
    · next hcond =>
        push_neg at hcond
        simpa using hcond
  have hwc_none : ∀ pw : ℚ → ℚ, ∀ T : ℚ, _compute_windchill pw (some T) none = none := by
    intro pw T; rfl
  have hcold : ∀ pw : ℚ → ℚ, ∀ T : ℚ, ∀ w cc rh : Option ℚ,
      ((_compute_windchill pw (some T) w).getD T ≤ 5 →
        _build_heat_cold_hazard pw (some T) w cc rh =
          some (_make_hazard "cold" "warning" 3 "Trời rét, có gió")) ∧
      (5 < (_compute_windchill pw (some T) w).getD T →
        (_compute_windchill pw (some T) w).getD T ≤ 10 →
        _build_heat_cold_hazard pw (some T) w cc rh =
          some (_make_hazard "cold" "watch" 2 "Trời lạnh")) ∧
      (10 < (_compute_windchill pw (some T) w).getD T →
        (_compute_windchill pw (some T) w).getD T ≤ 15 →
        _build_heat_cold_hazard pw (some T) w cc rh =
          some (_make_hazard "cold" "info" 1 "Thời tiết se lạnh")) := by
    intro pw T w cc rh
    refine ⟨fun h5 => ?_, fun h5 h10 => ?_, fun h10 h15 => ?_⟩
    · simp only [_build_heat_cold_hazard]
      rw [if_pos (by linarith), if_pos h5]
    · simp only [_build_heat_cold_hazard]
      rw [if_pos (by linarith), if_neg (not_le.mpr h5), if_pos h10]
    · simp only [_build_heat_cold_hazard]
      rw [if_pos h15, if_neg (not_le.mpr (by linarith)), if_neg (not_le.mpr h10)]
  have hheat : ∀ pw : ℚ → ℚ, ∀ T : ℚ, ∀ w cc rh : Option ℚ, 32 ≤ T →
      ((_compute_heat_index (some T) rh).getD T < 41 →
        _build_heat_cold_hazard pw (some T) w cc rh =
          some (_make_hazard "heat" "info" 1 "Thời tiết oi nóng")) ∧
      (41 ≤ (_compute_heat_index (some T) rh).getD T →
        (_compute_heat_index (some T) rh).getD T < 54 →
        _build_heat_cold_hazard pw (some T) w cc rh =
          some (_make_hazard "heat" "watch" 2 "Nắng nóng, cần thận trọng")) ∧
      (54 ≤ (_compute_heat_index (some T) rh).getD T →
        _build_heat_cold_hazard pw (some T) w cc rh =
          some (_make_hazard "heat" "warning" 3 "Nắng nóng gay gắt, nguy cơ cao")) := by
    intro pw T w cc rh hT
    have hwc : _compute_windchill pw (some T) w = none := by
      cases w with
      | none => rfl
      | some w0 =>
          simp only [_compute_windchill]
          rw [if_pos (Or.inl (by linarith))]
    have hec : (_compute_windchill pw (some T) w).getD T = T := by rw [hwc]; rfl
    have heh := effective_heat_ge_32 T rh hT
    refine ⟨fun h41 => ?_, fun h41 h54 => ?_, fun h54 => ?_⟩
    · simp only [_build_heat_cold_hazard, hec]
      rw [if_neg (not_le.mpr (by linarith)), if_neg (not_lt.mpr hT),
        if_neg (not_lt.mpr heh), if_pos h41]
    · simp only [_build_heat_cold_hazard, hec]
      rw [if_neg (not_le.mpr (by linarith)), if_neg (not_lt.mpr hT),
        if_neg (not_lt.mpr heh), if_neg (not_lt.mpr h41), if_pos h54]
    · simp only [_build_heat_cold_hazard, hec]
      rw [if_neg (not_le.mpr (by linarith)), if_neg (not_lt.mpr hT),
        if_neg (not_lt.mpr heh), if_neg (not_lt.mpr (by linarith)),
        if_neg (not_lt.mpr (by linarith))]
  refine ⟨hwc_def, hwc_none, hcold, hheat, ?_, ?_⟩
  · intro pw t w cc rh h hres
    have htype : h.h_type = "cold" ∨ h.h_type = "heat" := by
      cases t with
      | none => simp [_build_heat_cold_hazard] at hres
      | some T =>
          simp only [_build_heat_cold_hazard] at hres
          split at hres
          · split at hres
            · cases hres; left; rfl
            · split at hres
              · cases hres; left; rfl
              · cases hres; left; rfl
          · split at hres
            · exact absurd hres (by simp)
            · split at hres
              · exact absurd hres (by simp)
              · split at hres
                · cases hres; right; rfl
                · split at hres
                  · cases hres; right; rfl
                  · cases hres; right; rfl
    refine ⟨htype, ?_⟩
    rintro ⟨hc, hh⟩
    rw [hc] at hh
    exact absurd hh (by decide)
  · have hpoly : (32:ℚ) < heat_index_poly 38 70 :=
      heat_index_poly_gt_32 38 70 (by norm_num) (by norm_num) (by norm_num)
    have hhi : _compute_heat_index (some 38) (some 70) = some (heat_index_poly 38 70) := by
      simp only [_compute_heat_index]
      rw [if_neg (by push_neg; constructor <;> norm_num)]
      norm_num
    refine ⟨hhi, hpoly, fun pw cc => ?_, fun rh hrh => ?_⟩
    · have h54 : (54:ℚ) ≤ (_compute_heat_index (some 38) (some 70)).getD 38 := by
        rw [hhi]
        have : heat_index_poly 38 70 = 15630299151/250000000 := by
          unfold heat_index_poly; norm_num
        simp [this]
        norm_num
      exact (hheat pw 38 none cc (some 70) (by norm_num)).2.2 h54
    · simp only [_compute_heat_index]
      rw [if_pos (Or.inr (by simp only [lt_min_iff, max_lt_iff]; norm_num; linarith))]

/-- Witness for C6 at concrete inputs: temperature 4°C without wind gives
the cold warning tier; temperature 38°C with 70% humidity gives the heat
warning tier; wind-chill at −2°C and 2 m/s (7.2 km/h) is defined. -/
theorem C6_heat_cold_classifier_witness :
    _build_heat_cold_hazard (fun _ => 1) (some 4) none none none =
      some (_make_hazard "cold" "warning" 3 "Trời rét, có gió") ∧
    _build_heat_cold_hazard (fun _ => 1) (some 38) none none (some 70) =
      some (_make_hazard "heat" "warning" 3 "Nắng nóng gay gắt, nguy cơ cao") ∧
    (_compute_windchill (fun _ => 1) (some (-2)) (some 2)).isSome := by
  refine ⟨?_, ?_, ?_⟩
  · exact (C6_heat_cold_classifier.2.2.1 (fun _ => 1) 4 none none none).1
      (by norm_num [_compute_windchill])
  · exact C6_heat_cold_classifier.2.2.2.2.2.2.2.1 (fun _ => 1) none
  · exact (C6_heat_cold_classifier.1 (fun _ => 1) (-2) 2).mpr (by norm_num)

/-! ## Time-series merger (api/views_obs.py, `merged_timeseries`) -/

/-- One hourly record as selected from the obs / fcst tables. -/
structure WeatherRec where
  temp_c : Option ℚ
  wind_ms : Option ℚ
  precip_mm : Option ℚ
  rel_humidity_pct : Option ℚ
  wind_dir_deg : Option ℚ
  cloudcover_pct : Option ℚ
  surface_pressure_hpa : Option ℚ
deriving DecidableEq, Repr

inductive StepSource where
  | obs
  | fcst
  | none
deriving DecidableEq, Repr

/-- One merged step.  `valid_at` is the hour-aligned timestamp, counted in
whole hours (the Python loop advances a datetime by `timedelta(hours=1)`). -/
structure TimeStep where
  valid_at : ℤ
  source : StepSource
  temp_c : Option ℚ
  wind_ms : Option ℚ
  precip_mm : Option ℚ
  rel_humidity_pct : Option ℚ
  wind_dir_deg : Option ℚ
  cloudcover_pct : Option ℚ
  surface_pressure_hpa : Option ℚ
deriving DecidableEq, Repr

/-- Body of the merge loop in `merged_timeseries`: obs first, else fcst,
else an empty `source="none"` record. -/
def mk_step (obs_map fcst_map : ℤ → Option WeatherRec) (cursor : ℤ) : TimeStep :=
  match obs_map cursor with
  | some rec =>
      { valid_at := cursor, source := StepSource.obs, temp_c := rec.temp_c
        wind_ms := rec.wind_ms, precip_mm := rec.precip_mm
        rel_humidity_pct := rec.rel_humidity_pct, wind_dir_deg := rec.wind_dir_deg
        cloudcover_pct := rec.cloudcover_pct
        surface_pressure_hpa := rec.surface_pressure_hpa }
  | Option.none =>
    match fcst_map cursor with
    | some rec =>
        { valid_at := cursor, source := StepSource.fcst, temp_c := rec.temp_c
          wind_ms := rec.wind_ms, precip_mm := rec.precip_mm
          rel_humidity_pct := rec.rel_humidity_pct, wind_dir_deg := rec.wind_dir_deg
          cloudcover_pct := rec.cloudcover_pct
          surface_pressure_hpa := rec.surface_pressure_hpa }
    | Option.none =>
        { valid_at := cursor, source := StepSource.none, temp_c := Option.none
          wind_ms := Option.none, precip_mm := Option.none
          rel_humidity_pct := Option.none, wind_dir_deg := Option.none
          cloudcover_pct := Option.none, surface_pressure_hpa := Option.none }

/-- The `while cursor <= end_utc` loop of `merged_timeseries`, appending a
step per hour. -/
def merge_loop (obs_map fcst_map : ℤ → Option WeatherRec) (cursor end_utc : ℤ) :
    List TimeStep :=
  if cursor ≤ end_utc then
    mk_step obs_map fcst_map cursor :: merge_loop obs_map fcst_map (cursor + 1) end_utc
  else []
termination_by (end_utc + 1 - cursor).toNat
decreasing_by omega

theorem merge_loop_eq_map (obs_map fcst_map : ℤ → Option WeatherRec) :
    ∀ (n : ℕ) (cursor end_utc : ℤ), (end_utc + 1 - cursor).toNat = n →
      merge_loop obs_map fcst_map cursor end_utc =
        (List.range n).map (fun i : ℕ => mk_step obs_map fcst_map (cursor + (i : ℤ))) := by
  intro n
  induction n with
  | zero =>
      intro cursor end_utc h0
      rw [merge_loop]
      rw [if_neg (by omega)]
      simp
  | succ m ih =>
      intro cursor end_utc hm
      rw [merge_loop]
      rw [if_pos (by omega)]
      rw [ih (cursor + 1) end_utc (by omega)]
      rw [List.range_succ_eq_map]
      simp only [List.map_cons, List.map_map]
      congr 1
      · norm_num
      · apply List.map_congr_left
        intro i _
        simp only [Function.comp_apply]
        congr 1
        push_cast
        ring

/-- C1: for any hour-aligned range with `start ≤ end` and any obs / fcst
maps, the merged series has exactly one step per hour of `[start, end]`
(length `end − start + 1`, the i-th step at hour `start + i` — hence
ascending with no gaps or duplicates); each step takes source obs if the
obs map has the hour, else fcst if the fcst map has it, else none; a
`source = none` step has every numeric field absent. -/
theorem C1_merged_timeseries_complete
    (obs_map fcst_map : ℤ → Option WeatherRec) (start_utc end_utc : ℤ)
    (hle : start_utc ≤ end_utc) :
    (merge_loop obs_map fcst_map start_utc end_utc).length =
      (end_utc - start_utc + 1).toNat ∧
    (∀ i : ℕ, i < (end_utc - start_utc + 1).toNat →
      (merge_loop obs_map fcst_map start_utc end_utc).get? i =
        some (mk_step obs_map fcst_map (start_utc + i))) ∧
    (∀ t : ℤ, (mk_step obs_map fcst_map t).valid_at = t ∧
      ((obs_map t).isSome → (mk_step obs_map fcst_map t).source = StepSource.obs) ∧
      (obs_map t = Option.none → (fcst_map t).isSome →
        (mk_step obs_map fcst_map t).source = StepSource.fcst) ∧
      (obs_map t = Option.none → fcst_map t = Option.none →
        (mk_step obs_map fcst_map t).source = StepSource.none)) ∧
    (∀ t : ℤ, (mk_step obs_map fcst_map t).source = StepSource.none →
      (mk_step obs_map fcst_map t).temp_c = Option.none ∧
      (mk_step obs_map fcst_map t).wind_ms = Option.none ∧
      (mk_step obs_map fcst_map t).precip_mm = Option.none ∧
      (mk_step obs_map fcst_map t).rel_humidity_pct = Option.none ∧
      (mk_step obs_map fcst_map t).wind_dir_deg = Option.none ∧
      (mk_step obs_map fcst_map t).cloudcover_pct = Option.none ∧
      (mk_step obs_map fcst_map t).surface_pressure_hpa = Option.none) := by
  have hmap := merge_loop_eq_map obs_map fcst_map ((end_utc + 1 - start_utc).toNat)
    start_utc end_utc rfl
  have hn : (end_utc + 1 - start_utc).toNat = (end_utc - start_utc + 1).toNat := by omega
  refine ⟨?_, ?_, ?_, ?_⟩
  · rw [hmap, List.length_map, List.length_range, hn]
  · intro i hi
    rw [hmap, List.get?_eq_getElem?, List.getElem?_map,
      List.getElem?_range (by omega)]
    rfl
  · intro t
    refine ⟨?_, ?_, ?_, ?_⟩
    · unfold mk_step
      rcases obs_map t with _ | r
      · rcases fcst_map t with _ | r <;> rfl
      · rfl
    · intro hobs
      unfold mk_step
      rcases hh : obs_map t with _ | r
      · rw [hh] at hobs; exact absurd hobs (by simp)
      · rfl
    · intro hobs hfcst
      unfold mk_step
      rw [hobs]
      rcases hh : fcst_map t with _ | r
      · rw [hh] at hfcst; exact absurd hfcst (by simp)
      · rfl
    · intro hobs hfcst
      unfold mk_step
      rw [hobs, hfcst]
  · intro t hsrc
    unfold mk_step at hsrc ⊢
    rcases hh : obs_map t with _ | r
    · simp only [hh] at hsrc ⊢
      rcases hh2 : fcst_map t with _ | r2
      · simp only [hh2]
        simp
      · simp [hh2] at hsrc
    · simp [hh] at hsrc

/-- Witness for C1 on the concrete range [0,2] with an obs record at hour 0
and a fcst record at hour 1: three steps, sources obs/fcst/none. -/
theorem C1_merged_timeseries_complete_witness :
    (merge_loop
        (fun t => if t = 0 then some ⟨some 25, Option.none, Option.none, Option.none,
          Option.none, Option.none, Option.none⟩ else Option.none)
        (fun t => if t = 1 then some ⟨some 26, Option.none, Option.none, Option.none,
          Option.none, Option.none, Option.none⟩ else Option.none)
        0 2).length = 3 ∧
    (mk_step
        (fun t => if t = 0 then some ⟨some 25, Option.none, Option.none, Option.none,
          Option.none, Option.none, Option.none⟩ else Option.none)
        (fun t => if t = 1 then some ⟨some 26, Option.none, Option.none, Option.none,
          Option.none, Option.none, Option.none⟩ else Option.none)
        2).source = StepSource.none := by
  constructor
  · have h := (C1_merged_timeseries_complete
      (fun t => if t = 0 then some ⟨some 25, Option.none, Option.none, Option.none,
        Option.none, Option.none, Option.none⟩ else Option.none)
      (fun t => if t = 1 then some ⟨some 26, Option.none, Option.none, Option.none,
        Option.none, Option.none, Option.none⟩ else Option.none)
      0 2 (by omega)).1
    simpa using h
  · exact ((C1_merged_timeseries_complete
      (fun t => if t = 0 then some ⟨some 25, Option.none, Option.none, Option.none,
        Option.none, Option.none, Option.none⟩ else Option.none)
      (fun t => if t = 1 then some ⟨some 26, Option.none, Option.none, Option.none,
        Option.none, Option.none, Option.none⟩ else Option.none)
      0 2 (by omega)).2.2.1 2).2.2.2 (by norm_num) (by norm_num)

/-- `int(request.GET.get("back") or 48)` wrapped in try/except: a missing,
empty or non-integer parameter becomes the default 48 (`none` models that
whole failure path), otherwise the parsed integer. -/
def parse_back_hours (p : Option ℤ) : ℤ := p.getD 48

/-- Same for `fwd` with default 96. -/
def parse_fwd_hours (p : Option ℤ) : ℤ := p.getD 96

/-- The clamping applied to `back_hours` in `merged_timeseries`:
negatives to 0, values above 168 to 168. -/
def clamp_back_hours (p : Option ℤ) : ℤ :=
  let b := parse_back_hours p
  let b := if b < 0 then 0 else b
  if b > 168 then 168 else b

/-- The clamping applied to `fwd_hours` in `merged_timeseries`. -/
def clamp_fwd_hours (p : Option ℤ) : ℤ :=
  let f := parse_fwd_hours p
  let f := if f < 0 then 0 else f
  if f > 168 then 168 else f

/-- C10 counterexample: a negative `back`/`fwd` parameter is clamped to 0,
not replaced by the defaults 48/96 as claimed. -/
theorem C10_window_clamp_counterexample :
    clamp_back_hours (some (-5)) = 0 ∧ clamp_fwd_hours (some (-5)) = 0 ∧
    (0 : ℤ) ≠ 48 ∧ (0 : ℤ) ≠ 96 := by
  refine ⟨?_, ?_, by omega, by omega⟩
  · simp [clamp_back_hours, parse_back_hours]
  · simp [clamp_fwd_hours, parse_fwd_hours]

/-- C10 (amended): non-integer/missing parameters get the defaults 48/96,
negative values are clamped to 0 (not to the defaults), values above 168
are clamped to 168; hence both windows lie in [0,168] and the merged
series always has between 1 and 337 hourly steps. -/
theorem C10_window_bounds :
    (clamp_back_hours Option.none = 48 ∧ clamp_fwd_hours Option.none = 96) ∧
    (∀ n : ℤ, n < 0 → clamp_back_hours (some n) = 0 ∧ clamp_fwd_hours (some n) = 0) ∧
    (∀ n : ℤ, 168 < n → clamp_back_hours (some n) = 168 ∧ clamp_fwd_hours (some n) = 168) ∧
    (∀ p : Option ℤ, 0 ≤ clamp_back_hours p ∧ clamp_back_hours p ≤ 168 ∧
      0 ≤ clamp_fwd_hours p ∧ clamp_fwd_hours p ≤ 168) ∧
    (∀ (obs_map fcst_map : ℤ → Option WeatherRec) (base_utc : ℤ) (pb pf : Option ℤ),
      (merge_loop obs_map fcst_map (base_utc - clamp_back_hours pb)
          (base_utc + clamp_fwd_hours pf)).length =
        (clamp_back_hours pb + clamp_fwd_hours pf + 1).toNat ∧
      1 ≤ (merge_loop obs_map fcst_map (base_utc - clamp_back_hours pb)
          (base_utc + clamp_fwd_hours pf)).length ∧
      (merge_loop obs_map fcst_map (base_utc - clamp_back_hours pb)
          (base_utc + clamp_fwd_hours pf)).length ≤ 337) := by
  have hbounds : ∀ p : Option ℤ, 0 ≤ clamp_back_hours p ∧ clamp_back_hours p ≤ 168 ∧
      0 ≤ clamp_fwd_hours p ∧ clamp_fwd_hours p ≤ 168 := by
    intro p
    simp only [clamp_back_hours, clamp_fwd_hours, parse_back_hours, parse_fwd_hours]
    rcases p with _ | n <;> simp <;> omega
  refine ⟨⟨rfl, rfl⟩, ?_, ?_, hbounds, ?_⟩
  · intro n hn
    simp only [clamp_back_hours, clamp_fwd_hours, parse_back_hours, parse_fwd_hours]
    constructor <;> simp <;> omega
  · intro n hn
    simp only [clamp_back_hours, clamp_fwd_hours, parse_back_hours, parse_fwd_hours]
    constructor <;> simp <;> omega
  · intro obs_map fcst_map base_utc pb pf
    obtain ⟨hb0, hb1, hf0, hf1⟩ := hbounds pb
    obtain ⟨hb0f, hb1f, hf0f, hf1f⟩ := hbounds pf
    have hlen : (merge_loop obs_map fcst_map (base_utc - clamp_back_hours pb)
        (base_utc + clamp_fwd_hours pf)).length =
        (clamp_back_hours pb + clamp_fwd_hours pf + 1).toNat := by
      rw [merge_loop_eq_map obs_map fcst_map
        ((base_utc + clamp_fwd_hours pf + 1 - (base_utc - clamp_back_hours pb)).toNat)
        (base_utc - clamp_back_hours pb) (base_utc + clamp_fwd_hours pf) rfl]
      rw [List.length_map, List.length_range]
      omega
    exact ⟨hlen, by omega, by omega⟩

/-- Witness for C10 (amended) at concrete parameters: `back=200` clamps to
168, `fwd` missing defaults to 96, and the merged series then has
168+96+1 = 265 steps. -/
theorem C10_window_bounds_witness :
    clamp_back_hours (some 200) = 168 ∧ clamp_fwd_hours Option.none = 96 ∧
    (merge_loop (fun _ => Option.none) (fun _ => Option.none)
      (0 - clamp_back_hours (some 200)) (0 + clamp_fwd_hours Option.none)).length = 265 := by
  have h168 := (C10_window_bounds.2.2.1 200 (by norm_num)).1
  have h96 := C10_window_bounds.1.2
  have hlen := (C10_window_bounds.2.2.2.2 (fun _ => Option.none) (fun _ => Option.none)
    0 (some 200) Option.none).1
  refine ⟨h168, h96, ?_⟩
  rw [hlen, h168, h96]
  rfl

/-! ## Rainfall accumulator (api/views_alerts.py, `_sum_rain_in_window`) -/

/-- Accumulator state of the loop in `_sum_rain_in_window`. -/
structure RainAcc where
  have_hours : Finset ℤ
  rain_1h : ℚ
  rain_3h : ℚ
  rain_6h : ℚ

/-- One iteration of the loop in `_sum_rain_in_window`.  Timestamps are
modelled in hours, so `(anchor_ts - valid_at).total_seconds()/3600` is
`anchor_ts - row.1`; `int(round(hours))` is exact round-half-to-even
(`hours` here is in [0,6]); `float(precip_mm or 0.0)` is `getD 0`. -/
def _rain_row_step (anchor_ts : ℚ) (acc : RainAcc) (row : ℚ × Option ℚ) : RainAcc :=
  let hours := anchor_ts - row.1
  if hours < 0 ∨ 6 < hours then acc
  else
    let hour_bucket := round_half_even hours
    let p := row.2.getD 0
    if hours ≤ 1 then
      { have_hours := insert hour_bucket acc.have_hours
        rain_1h := acc.rain_1h + p, rain_3h := acc.rain_3h + p, rain_6h := acc.rain_6h + p }
    else if hours ≤ 3 then
      { have_hours := insert hour_bucket acc.have_hours
        rain_1h := acc.rain_1h, rain_3h := acc.rain_3h + p, rain_6h := acc.rain_6h + p }
    else
      { have_hours := insert hour_bucket acc.have_hours
        rain_1h := acc.rain_1h, rain_3h := acc.rain_3h, rain_6h := acc.rain_6h + p }

/-- `_sum_rain_in_window` from api/views_alerts.py: returns
`(rain_1h, rain_3h, rain_6h, coverage_ratio)`. -/
def _sum_rain_in_window (rows : List (ℚ × Option ℚ)) (anchor_ts : ℚ) : ℚ × ℚ × ℚ × ℚ :=
  let acc := rows.foldl (_rain_row_step anchor_ts) ⟨∅, 0, 0, 0⟩
  (acc.rain_1h, acc.rain_3h, acc.rain_6h, (acc.have_hours.card : ℚ) / 7)

theorem rain_row_step_discard (anchor_ts : ℚ) (acc : RainAcc) (row : ℚ × Option ℚ)
    (h : anchor_ts - row.1 < 0 ∨ 6 < anchor_ts - row.1) :
    _rain_row_step anchor_ts acc row = acc := by
  unfold _rain_row_step
  rw [if_pos h]

theorem rain_fold_filter (anchor_ts : ℚ) :
    ∀ (rows : List (ℚ × Option ℚ)) (acc : RainAcc),
      rows.foldl (_rain_row_step anchor_ts) acc =
        (rows.filter (fun row =>
          decide (0 ≤ anchor_ts - row.1) && decide (anchor_ts - row.1 ≤ 6))).foldl
          (_rain_row_step anchor_ts) acc := by
  intro rows
  induction rows with
  | nil => intro acc; rfl
  | cons r rs ih =>
      intro acc
      by_cases hin : 0 ≤ anchor_ts - r.1 ∧ anchor_ts - r.1 ≤ 6
      · have : (decide (0 ≤ anchor_ts - r.1) && decide (anchor_ts - r.1 ≤ 6)) = true := by
          simp [hin.1, hin.2]
        simp only [List.foldl_cons, List.filter_cons, this, if_pos]
        exact ih _
      · have hdrop : _rain_row_step anchor_ts acc r = acc := by
          apply rain_row_step_discard
          rcases not_and_or.mp hin with h | h
          · left; linarith [not_le.mp h]
          · right; exact not_le.mp h
        have : (decide (0 ≤ anchor_ts - r.1) && decide (anchor_ts - r.1 ≤ 6)) = false := by
          rcases not_and_or.mp hin with h | h <;> simp [h]
        simp only [List.foldl_cons, List.filter_cons, this, hdrop]
        simp only [Bool.false_eq_true, if_false]
        exact ih _

theorem rain_row_step_mono (anchor_ts : ℚ) (acc : RainAcc) (row : ℚ × Option ℚ)
    (hp : 0 ≤ row.2.getD 0)
    (h13 : acc.rain_1h ≤ acc.rain_3h) (h36 : acc.rain_3h ≤ acc.rain_6h) :
    (_rain_row_step anchor_ts acc row).rain_1h ≤
      (_rain_row_step anchor_ts acc row).rain_3h ∧
    (_rain_row_step anchor_ts acc row).rain_3h ≤
      (_rain_row_step anchor_ts acc row).rain_6h := by
  simp only [_rain_row_step]
  by_cases h0 : anchor_ts - row.1 < 0 ∨ 6 < anchor_ts - row.1
  · rw [if_pos h0]
    exact ⟨h13, h36⟩
  · rw [if_neg h0]
    by_cases h1 : anchor_ts - row.1 ≤ 1
    · rw [if_pos h1]
      constructor <;> simp <;> linarith
    · rw [if_neg h1]
      by_cases h3 : anchor_ts - row.1 ≤ 3
      · rw [if_pos h3]
        constructor <;> simp <;> linarith
      · rw [if_neg h3]
        constructor <;> simp <;> linarith

theorem rain_fold_mono (anchor_ts : ℚ) :
    ∀ (rows : List (ℚ × Option ℚ)) (acc : RainAcc),
      (∀ row ∈ rows, 0 ≤ row.2.getD 0) →
      acc.rain_1h ≤ acc.rain_3h → acc.rain_3h ≤ acc.rain_6h →
      (rows.foldl (_rain_row_step anchor_ts) acc).rain_1h ≤
        (rows.foldl (_rain_row_step anchor_ts) acc).rain_3h ∧
      (rows.foldl (_rain_row_step anchor_ts) acc).rain_3h ≤
        (rows.foldl (_rain_row_step anchor_ts) acc).rain_6h := by
  intro rows
  induction rows with
  | nil => intro acc _ h13 h36; exact ⟨h13, h36⟩
  | cons r rs ih =>
      intro acc hpos h13 h36
      have hp : 0 ≤ r.2.getD 0 := hpos r (by simp)
      obtain ⟨hstep13, hstep36⟩ := rain_row_step_mono anchor_ts acc r hp h13 h36
      simp only [List.foldl_cons]
      exact ih _ (fun row hrow => hpos row (by simp [hrow])) hstep13 hstep36

/-- C7 (amended): rows outside the 0..6h-back window are discarded (the
fold equals the fold over the in-window filter); when every precipitation
value (absent read as 0) is non-negative the raw sums are nested,
`rain_1h ≤ rain_3h ≤ rain_6h`; and the derived effective values always
satisfy `eff_1h ≤ eff_3h ≤ eff_6h`. -/
theorem C7_rain_sums_monotone :
    (∀ (rows : List (ℚ × Option ℚ)) (anchor_ts : ℚ),
      _sum_rain_in_window rows anchor_ts =
        _sum_rain_in_window
          (rows.filter (fun row =>
            decide (0 ≤ anchor_ts - row.1) && decide (anchor_ts - row.1 ≤ 6)))
          anchor_ts) ∧
    (∀ (rows : List (ℚ × Option ℚ)) (anchor_ts : ℚ),
      (∀ row ∈ rows, 0 ≤ row.2.getD 0) →
      (_sum_rain_in_window rows anchor_ts).1 ≤ (_sum_rain_in_window rows anchor_ts).2.1 ∧
      (_sum_rain_in_window rows anchor_ts).2.1 ≤
        (_sum_rain_in_window rows anchor_ts).2.2.1) ∧
    (∀ a b c : Option ℚ,
      _effective_rain_1h a ≤ _effective_rain_3h a b ∧
      _effective_rain_3h a b ≤ _effective_rain_6h a b c) := by
  refine ⟨?_, ?_, ?_⟩
  · intro rows anchor_ts
    unfold _sum_rain_in_window
    rw [rain_fold_filter anchor_ts rows]
  · intro rows anchor_ts hpos
    unfold _sum_rain_in_window
    exact rain_fold_mono anchor_ts rows ⟨∅, 0, 0, 0⟩ hpos le_rfl le_rfl
  · intro a b c
    have e3 : _effective_rain_3h a b =
        max 0 (_safe_float a 0) +
          0.6 * max 0 (max 0 (_safe_float b 0) - max 0 (_safe_float a 0)) := by
      unfold _effective_rain_3h
      apply max_eq_right
      positivity
    have e6 : _effective_rain_6h a b c =
        max 0 (_safe_float a 0) +
          0.6 * max 0 (max 0 (_safe_float b 0) - max 0 (_safe_float a 0)) +
          0.4 * max 0 (max 0 (_safe_float c 0) - max 0 (_safe_float b 0)) := by
      unfold _effective_rain_6h
      apply max_eq_right
      positivity
    constructor
    · rw [e3]
      unfold _effective_rain_1h
      have : (0:ℚ) ≤ 0.6 * max 0 (max 0 (_safe_float b 0) - max 0 (_safe_float a 0)) := by
        positivity
      linarith
    · rw [e3, e6]
      have : (0:ℚ) ≤ 0.4 * max 0 (max 0 (_safe_float c 0) - max 0 (_safe_float b 0)) := by
        positivity
      linarith

/-- Witness for C7 at a concrete list: two rows (1mm at 0.5h back, 2mm at
2h back) give rain sums (1, 3, 3) which are nested, and the effective
values for (2, 8, 10) are nested. -/
theorem C7_rain_sums_monotone_witness :
    (_sum_rain_in_window [((5.5 : ℚ), some 1), ((4 : ℚ), some 2)] 6).1 ≤
      (_sum_rain_in_window [((5.5 : ℚ), some 1), ((4 : ℚ), some 2)] 6).2.1 ∧
    _effective_rain_1h (some 2) ≤ _effective_rain_3h (some 2) (some 8) := by
  constructor
  · exact ((C7_rain_sums_monotone.2.1 [((5.5 : ℚ), some 1), ((4 : ℚ), some 2)] 6)
      (by
        intro row hrow
        simp only [List.mem_cons, List.not_mem_nil, or_false] at hrow
        rcases hrow with h | h <;> subst h <;> norm_num)).1
  · exact (C7_rain_sums_monotone.2.2 (some 2) (some 8) (some 10)).1

/-- C7 counterexample: a single in-window row with a negative
precipitation value (2h back, −1mm) makes `rain_3h = −1 < rain_1h = 0`,
so the nesting claimed for every row list fails. -/
theorem C7_rain_sums_monotone_counterexample :
    ¬ ((_sum_rain_in_window [((-2 : ℚ), some (-1))] 0).1 ≤
        (_sum_rain_in_window [((-2 : ℚ), some (-1))] 0).2.1) := by
  have h : _sum_rain_in_window [((-2 : ℚ), some (-1))] 0 =
      (0, -1, -1, 1/7) := by
    unfold _sum_rain_in_window _rain_row_step
    norm_num [round_half_even, Rat.floor]
  rw [h]
  norm_num

/-! ## DEM sampling wrapper (api/views_flood.py, `_try_sample_dem`) and
terrain-band substitution in `flood_risk_latest` -/

/-- The try-block body of `_try_sample_dem`.  The two sampler functions
are parameters: `Except.error` models a raised exception (missing
rasterio/pyproj, missing DEM file, CRS error, ...), `.ok Option.none` an
out-of-raster or invalid sample.  Mirrors the source: relief uses
`half_size_px = 15`; without a center elevation no slope proxy is
computed; otherwise four offsets of 0.01° are sampled and the slope proxy
is the maximum absolute difference over those that succeeded (`None` if
none did). -/
def dem_try_body (sample_elevation : ℚ → ℚ → Except String (Option ℚ))
    (sample_relief : ℚ → ℚ → ℤ → Except String (Option ℚ)) (lat lon : ℚ) :
    Except String (Option ℚ × Option ℚ × Option ℚ) := do
  let elev ← sample_elevation lat lon
  let relief ← sample_relief lat lon 15
  match elev with
  | Option.none => pure (Option.none, relief, Option.none)
  | some e => do
      let d : ℚ := 0.01
      let e_n ← sample_elevation (lat + d) lon
      let e_s ← sample_elevation (lat - d) lon
      let e_e ← sample_elevation lat (lon + d)
      let e_w ← sample_elevation lat (lon - d)
      let diffs := ([e_n, e_s, e_e, e_w].filterMap id).map (fun ex => |ex - e|)
      pure (some e, relief, diffs.maximum?)

/-- `_try_sample_dem` from api/views_flood.py: any exception from the body
is swallowed and terrain is dropped entirely. -/
def _try_sample_dem (sample_elevation : ℚ → ℚ → Except String (Option ℚ))
    (sample_relief : ℚ → ℚ → ℤ → Except String (Option ℚ)) (lat lon : ℚ) :
    Option ℚ × Option ℚ × Option ℚ :=
  match dem_try_body sample_elevation sample_relief lat lon with
  | Except.ok t => t
  | Except.error _ => (Option.none, Option.none, Option.none)

/-- The terrain-band substitution in `flood_risk_latest`: a missing
relief/elevation/slope each degrade to band/penalty 0.  Returns
`(relief_band, elev_band, slope_pen)`. -/
def flood_terrain_bands (elev_m relief_local_m slope_like_m : Option ℚ) : ℤ × ℤ × ℤ :=
  ((match relief_local_m with
    | Option.none => 0
    | some r => _terrain_band_from_relief_local (some r)),
   (match elev_m with
    | Option.none => 0
    | some e => _elevation_band (some e)),
   (match slope_like_m with
    | Option.none => 0
    | some s => _slope_like_penalty (some s)))

/-- C8: a sampler failure (exception) anywhere in `_try_sample_dem` yields
`(None, None, None)` instead of propagating; `None` relief/elevation/slope
substitute band 0 / penalty 0; with all-missing terrain the score is the
rain-only score `_combined_risk_score rain_band 0 0 0`, which is always in
[0,4] and a valid index into `RISK_LEVELS` — the scoring never raises. -/
theorem C8_terrain_failure_degrades :
    (∀ (se : ℚ → ℚ → Except String (Option ℚ))
       (sr : ℚ → ℚ → ℤ → Except String (Option ℚ)) (lat lon : ℚ) (msg : String),
      dem_try_body se sr lat lon = Except.error msg →
      _try_sample_dem se sr lat lon = (Option.none, Option.none, Option.none)) ∧
    (∀ (se : ℚ → ℚ → Except String (Option ℚ))
       (sr : ℚ → ℚ → ℤ → Except String (Option ℚ)) (lat lon : ℚ) (msg : String),
      se lat lon = Except.error msg →
      _try_sample_dem se sr lat lon = (Option.none, Option.none, Option.none)) ∧
    (∀ elev slope : Option ℚ, (flood_terrain_bands elev Option.none slope).1 = 0) ∧
    (∀ relief slope : Option ℚ, (flood_terrain_bands Option.none relief slope).2.1 = 0) ∧
    (∀ elev relief : Option ℚ, (flood_terrain_bands elev relief Option.none).2.2 = 0) ∧
    (flood_terrain_bands Option.none Option.none Option.none = (0, 0, 0)) ∧
    (∀ rain_band : ℤ,
      0 ≤ _combined_risk_score rain_band 0 0 0 ∧
      _combined_risk_score rain_band 0 0 0 ≤ 4 ∧
      (RISK_LEVELS.get? (_combined_risk_score rain_band 0 0 0).toNat).isSome) := by
  refine ⟨?_, ?_, ?_, ?_, ?_, rfl, ?_⟩
  · intro se sr lat lon msg herr
    unfold _try_sample_dem
    rw [herr]
  · intro se sr lat lon msg herr
    unfold _try_sample_dem
    have : dem_try_body se sr lat lon = Except.error msg := by
      unfold dem_try_body
      rw [herr]
      rfl
    rw [this]
  · intro elev slope; rfl
  · intro relief slope
    cases relief <;> rfl
  · intro elev relief
    cases elev <;> cases relief <;> rfl
  · intro rain_band
    have hb : 0 ≤ _combined_risk_score rain_band 0 0 0 ∧
        _combined_risk_score rain_band 0 0 0 ≤ 4 := by
      simp only [_combined_risk_score]
      omega
    exact ⟨hb.1, hb.2, risk_levels_get_of_le _ (by omega)⟩

/-- Witness for C8: a sampler that always raises produces the all-None
triple, and the resulting rain-only score at rain_band 4 is 3 with a
valid level. -/
theorem C8_terrain_failure_degrades_witness :
    _try_sample_dem (fun _ _ => Except.error "rasterio missing")
      (fun _ _ _ => Except.error "rasterio missing") 21 105 =
      (Option.none, Option.none, Option.none) ∧
    (RISK_LEVELS.get? (_combined_risk_score 4 0 0 0).toNat).isSome := by
  constructor
  · exact C8_terrain_failure_degrades.2.1 _ _ 21 105 "rasterio missing" rfl
  · exact (C8_terrain_failure_degrades.2.2.2.2.2.2 4).2.2

/-! ## Raster relief sampler (api/dem_utils.py, `sample_relief_local`) -/

/-- A loaded DEM raster.  `pix r c = none` models a non-finite sample
(NaN/±inf); `nodata` is the optional nodata sentinel.  The
lat/lon-to-pixel reprojection (`transformer.transform` + `ds.index`) is
external to the claim and is modelled by passing the resulting
`(row, col)` directly. -/
structure Dem where
  height : ℤ
  width : ℤ
  pix : ℤ → ℤ → Option ℚ
  nodata : Option ℚ

/-- The validity filter applied to every sampled pixel in
`sample_relief_local`: skip non-finite values and the nodata sentinel. -/
def dem_valid_val (d : Dem) (r c : ℤ) : Option ℚ :=
  match d.pix r c with
  | Option.none => Option.none
  | some v => if d.nodata = some v then Option.none else some v

/-- All valid values of the clamped window, scanned row-major exactly as
the nested loops do. -/
def dem_window_vals (d : Dem) (row_start row_stop col_start col_stop : ℤ) : List ℚ :=
  ((List.range (row_stop - row_start).toNat).flatMap (fun i =>
    (List.range (col_stop - col_start).toNat).map (fun j =>
      (row_start + (i : ℤ), col_start + (j : ℤ))))).filterMap
    (fun rc => dem_valid_val d rc.1 rc.2)

/-- `sample_relief_local` from api/dem_utils.py, from the pixel-index step
onward: bounds check, window clamped to the raster, minimum over valid
window values (Python keeps the first running minimum — equal to the list
minimum), defensive center-in-window check, center validity check, and
the final clamp of `relief` to ≥ 0. -/
def sample_relief_local (d : Dem) (row col half_size_px : ℤ) : Option ℚ :=
  if row < 0 ∨ d.height ≤ row ∨ col < 0 ∨ d.width ≤ col then Option.none
  else
    let row_start := max 0 (row - half_size_px)
    let row_stop := min d.height (row + half_size_px + 1)
    let col_start := max 0 (col - half_size_px)
    let col_stop := min d.width (col + half_size_px + 1)
    match (dem_window_vals d row_start row_stop col_start col_stop).minimum? with
    | Option.none => Option.none
    | some local_min =>
      if row_start ≤ row ∧ row < row_stop ∧ col_start ≤ col ∧ col < col_stop then
        match dem_valid_val d row col with
        | Option.none => Option.none
        | some elev_center =>
            some (if elev_center - local_min < 0 then 0 else elev_center - local_min)
      else Option.none

theorem dem_window_vals_nil_of_all_invalid (d : Dem) (r0 r1 c0 c1 : ℤ)
    (h : ∀ r c : ℤ, dem_valid_val d r c = Option.none) :
    dem_window_vals d r0 r1 c0 c1 = [] := by
  unfold dem_window_vals
  rw [List.filterMap_eq_nil_iff]
  intro rc _
  exact h rc.1 rc.2

/-- C9: `sample_relief_local` returns `None` or a non-negative relief;
it returns `None` when the pixel lies outside the raster, when the center
pixel is invalid (non-finite or nodata), and when the window holds no
valid value at all. -/
theorem C9_relief_nonneg_and_none_cases (d : Dem) (row col half_size_px : ℤ) :
    (∀ v : ℚ, sample_relief_local d row col half_size_px = some v → 0 ≤ v) ∧
    ((row < 0 ∨ d.height ≤ row ∨ col < 0 ∨ d.width ≤ col) →
      sample_relief_local d row col half_size_px = Option.none) ∧
    (dem_valid_val d row col = Option.none →
      sample_relief_local d row col half_size_px = Option.none) ∧
    ((∀ r c : ℤ, dem_valid_val d r c = Option.none) →
      sample_relief_local d row col half_size_px = Option.none) := by
  refine ⟨?_, ?_, ?_, ?_⟩
  · intro v hv
    simp only [sample_relief_local] at hv
    by_cases hout : row < 0 ∨ d.height ≤ row ∨ col < 0 ∨ d.width ≤ col
    · rw [if_pos hout] at hv; cases hv
    · rw [if_neg hout] at hv
      rcases hmin : (dem_window_vals d (max 0 (row - half_size_px))
          (min d.height (row + half_size_px + 1)) (max 0 (col - half_size_px))
          (min d.width (col + half_size_px + 1))).minimum? with _ | m
      · simp only [hmin] at hv
        cases hv
      · simp only [hmin] at hv
        by_cases hin : max 0 (row - half_size_px) ≤ row ∧
            row < min d.height (row + half_size_px + 1) ∧
            max 0 (col - half_size_px) ≤ col ∧
            col < min d.width (col + half_size_px + 1)
        · rw [if_pos hin] at hv
          rcases hc : dem_valid_val d row col with _ | ec
          · simp only [hc] at hv
            cases hv
          · simp only [hc, Option.some_inj] at hv
            subst hv
            split
            · exact le_rfl
            · next hge => linarith [not_lt.mp hge]
        · rw [if_neg hin] at hv; cases hv
  · intro hout
    simp only [sample_relief_local]
    rw [if_pos hout]
  · intro hcenter
    simp only [sample_relief_local]
    by_cases hout : row < 0 ∨ d.height ≤ row ∨ col < 0 ∨ d.width ≤ col
    · rw [if_pos hout]
    · rw [if_neg hout]
      rcases hmin : (dem_window_vals d (max 0 (row - half_size_px))
          (min d.height (row + half_size_px + 1)) (max 0 (col - half_size_px))
          (min d.width (col + half_size_px + 1))).minimum? with _ | m
      · simp only [hmin]
      · simp only [hmin]
        by_cases hin : max 0 (row - half_size_px) ≤ row ∧
            row < min d.height (row + half_size_px + 1) ∧
            max 0 (col - half_size_px) ≤ col ∧
            col < min d.width (col + half_size_px + 1)
        · rw [if_pos hin, hcenter]
        · rw [if_neg hin]
  · intro hall
    simp only [sample_relief_local]
    by_cases hout : row < 0 ∨ d.height ≤ row ∨ col < 0 ∨ d.width ≤ col
    · rw [if_pos hout]
    · rw [if_neg hout]
      rw [dem_window_vals_nil_of_all_invalid d _ _ _ _ hall]
      simp

/-- Witness for C9: a 1×1 all-valid raster at value 5 yields relief
`some 0`, which the theorem bounds below by 0; a raster whose only pixel
is nodata yields `None`. -/
theorem C9_relief_nonneg_and_none_cases_witness :
    sample_relief_local ⟨1, 1, fun _ _ => some 5, Option.none⟩ 0 0 15 = some 0 ∧
    (0:ℚ) ≤ 0 ∧
    sample_relief_local ⟨1, 1, fun _ _ => some 7, some 7⟩ 0 0 15 = Option.none := by
  have hw : dem_window_vals ⟨1, 1, fun _ _ => some 5, Option.none⟩ 0 1 0 1 = [5] := rfl
  have hval : sample_relief_local ⟨1, 1, fun _ _ => some 5, Option.none⟩ 0 0 15 = some 0 := by
    simp only [sample_relief_local]
    rw [if_neg (by norm_num)]
    have h1 : (0:ℤ) ⊔ (0 - 15) = 0 := by omega
    have h2 : (1:ℤ) ⊓ (0 + 15 + 1) = 1 := by omega
    rw [h1, h2, hw]
    have hm : ([(5:ℚ)].minimum?) = some 5 := rfl
    rw [hm]
    simp only []
    rw [if_pos (by omega)]
    have hc : dem_valid_val ⟨1, 1, fun _ _ => some 5, Option.none⟩ 0 0 = some 5 := by
      simp [dem_valid_val]
    rw [hc]
    norm_num
  refine ⟨hval, (C9_relief_nonneg_and_none_cases _ 0 0 15).1 0 hval, ?_⟩
  exact (C9_relief_nonneg_and_none_cases ⟨1, 1, fun _ _ => some 7, some 7⟩ 0 0 15).2.2.1
    (by unfold dem_valid_val; norm_num)

end VnWeather
